import Mathlib

/-!
Shallow embedding of `netapp_ontap/models/oracle_on_san_new_igroups.py`:
the `OracleOnSanNewIgroups` record and its marshmallow schema
`OracleOnSanNewIgroupsSchema`, together with the serialize (dump) and
deserialize (load) behaviour that the schema declaration induces.

The source file declares four marshmallow fields:

  initiators = fields.List(fields.Str, data_key="initiators")
  name       = fields.Str(data_key="name")
  os_type    = fields.Str(data_key="os_type")
  protocol   = fields.Str(data_key="protocol")

None of the four declarations carries a `validate=` argument, a
`required=True` flag, or a default; the "Valid choices" lists for
`os_type` and `protocol` appear only in docstrings.  The schema
subclasses `ResourceSchema` (netapp_ontap/resource.py, not part of the
sources provided), whose unknown-key policy the source signals by
importing marshmallow's `EXCLUDE`.
-/

set_option autoImplicit false

/-- Wire values: the JSON-like data that marshmallow dump produces and
load consumes. -/
inductive Wire where
  | str : String → Wire
  | num : Int → Wire
  | boolean : Bool → Wire
  | null : Wire
  | list : List Wire → Wire
  | obj : List (String × Wire) → Wire
deriving Repr

/-- Validation failure raised by marshmallow load, carrying the offending
field name and a message. -/
structure ValidationError where
  field : String
  message : String
deriving DecidableEq, Repr

/-- The in-memory record: all four fields optional, mirroring that the
source declares every field without `required=True` and without a
default. -/
structure OracleOnSanNewIgroups where
  initiators : Option (List String) := none
  name : Option String := none
  os_type : Option String := none
  protocol : Option String := none
deriving DecidableEq, Repr

/-- The valid choices documented for `os_type` in the source docstring. -/
def os_type_valid_choices : List String :=
  ["aix", "hpux", "hyper_v", "linux", "solaris", "vmware", "windows", "xen"]

/-- The valid choices documented for `protocol` in the source docstring. -/
def protocol_valid_choices : List String :=
  ["fcp", "iscsi", "mixed"]

/-- First-occurrence lookup of a key in a wire object, the access pattern
a Python dict gives marshmallow for each declared data_key. -/
def wireLookup : List (String × Wire) → String → Option Wire
  | [], _ => none
  | (k, v) :: rest, key => if k = key then some v else wireLookup rest key

/-- Modelled from the spec: marshmallow `fields.Str` deserialization
(part of the external framework, not under the provided sources) accepts
exactly string wire values and otherwise fails with `ValidationError`.
The source attaches no validator to any `Str` field. -/
def loadStr (fieldName : String) (w : Wire) : Except ValidationError String :=
  match w with
  | Wire.str s => Except.ok s
  | _ => Except.error ⟨fieldName, "Not a valid string."⟩

/-- Element-wise deserialization of a wire list as `fields.List(fields.Str)`
items; the whole list fails if any element fails. -/
def loadStrItems (fieldName : String) : List Wire → Except ValidationError (List String)
  | [] => Except.ok []
  | w :: rest =>
    match loadStr fieldName w, loadStrItems fieldName rest with
    | Except.ok s, Except.ok ss => Except.ok (s :: ss)
    | Except.error e, _ => Except.error e
    | _, Except.error e => Except.error e

/-- Modelled from the spec: marshmallow `fields.List(fields.Str)`
deserialization accepts exactly list wire values whose items are strings;
a scalar (non-sequence) value fails with `ValidationError`. -/
def loadStrList (fieldName : String) (w : Wire) : Except ValidationError (List String) :=
  match w with
  | Wire.list ws => loadStrItems fieldName ws
  | _ => Except.error ⟨fieldName, "Not a valid list."⟩

/-- Deserialization of one optional declared field: a missing key loads
as absent; a present key's value must parse. -/
def loadOptField {α : Type} (parse : String → Wire → Except ValidationError α)
    (fieldName : String) (kvs : List (String × Wire)) :
    Except ValidationError (Option α) :=
  match wireLookup kvs fieldName with
  | none => Except.ok none
  | some w =>
    match parse fieldName w with
    | Except.ok a => Except.ok (some a)
    | Except.error e => Except.error e

/-- Modelled from the spec: deserialization of the four declared fields
of `OracleOnSanNewIgroupsSchema` from a wire object.  Keys other than the
four declared data_keys are ignored (`ResourceSchema`, not under the
provided sources, configures marshmallow's `EXCLUDE` unknown-key policy,
which the source signals by importing `EXCLUDE`).  The record is produced
only if every present declared field parses; otherwise the whole load
fails with the `ValidationError` of a failing field. -/
def deserializeFields (kvs : List (String × Wire)) :
    Except ValidationError OracleOnSanNewIgroups :=
  match loadOptField loadStrList "initiators" kvs,
        loadOptField loadStr "name" kvs,
        loadOptField loadStr "os_type" kvs,
        loadOptField loadStr "protocol" kvs with
  | Except.ok i, Except.ok n, Except.ok o, Except.ok p =>
    Except.ok ⟨i, n, o, p⟩
  | Except.error e, _, _, _ => Except.error e
  | _, Except.error e, _, _ => Except.error e
  | _, _, Except.error e, _ => Except.error e
  | _, _, _, Except.error e => Except.error e

/-- Modelled from the spec: schema load (`deserialize`).  Marshmallow
rejects a non-object input outright; an object is loaded field by field
per `deserializeFields`. -/
def deserialize (w : Wire) : Except ValidationError OracleOnSanNewIgroups :=
  match w with
  | Wire.obj kvs => deserializeFields kvs
  | _ => Except.error ⟨"_schema", "Invalid input type."⟩

/-- Dump of one optional field: a present value is emitted as a single
entry under its data_key, an absent one is omitted entirely. -/
def dumpOpt {α : Type} (key : String) (f : α → Wire) : Option α → List (String × Wire)
  | some a => [(key, f a)]
  | none => []

/-- Modelled from the spec: schema dump (`serialize`).  Marshmallow dump
emits, in field declaration order, one entry per present field under its
declared data_key and omits absent fields (no null placeholders); dump
runs no validators, so it is total on the record type. -/
def serialize (r : OracleOnSanNewIgroups) : List (String × Wire) :=
  dumpOpt "initiators" (fun l => Wire.list (l.map Wire.str)) r.initiators ++
  dumpOpt "name" Wire.str r.name ++
  dumpOpt "os_type" Wire.str r.os_type ++
  dumpOpt "protocol" Wire.str r.protocol

namespace OracleOnSanNewIgroupsSchema

/-- The `patchable_fields` property of the source schema: a literal
Python list of the four field names, in declaration order. -/
def patchable_fields : List String :=
  ["initiators", "name", "os_type", "protocol"]

/-- The `postable_fields` property of the source schema: a literal
Python list of the same four field names, in the same order. -/
def postable_fields : List String :=
  ["initiators", "name", "os_type", "protocol"]

end OracleOnSanNewIgroupsSchema

/-- The four wire keys recognized by the schema: the `data_key` of each
declared field, in declaration order. -/
def declared_data_keys : List String :=
  ["initiators", "name", "os_type", "protocol"]

/-- Whether a wire value is a string, the shape `fields.Str` requires. -/
def Wire.isStr : Wire → Bool
  | Wire.str _ => true
  | _ => false

/-- Whether a wire value is a sequence of strings, the shape
`fields.List(fields.Str)` requires. -/
def isStrListWire : Wire → Bool
  | Wire.list ws => ws.all Wire.isStr
  | _ => false

/-- Whether a wire value matches the declared semantic type of the field
with the given data_key: a sequence of strings for initiators, a plain
string for name, os_type and protocol. -/
def matchesDeclaredShape (key : String) (w : Wire) : Bool :=
  if key = "initiators" then isStrListWire w else Wire.isStr w

/-- The end-to-end example record of the spec. -/
def exampleRecord : OracleOnSanNewIgroups :=
  { initiators := some ["iqn.1991-05.com.microsoft:host1"],
    name := some "igroup1",
    os_type := some "windows",
    protocol := some "iscsi" }

/-! ## Helper lemmas -/

theorem loadStrItems_map (fieldName : String) (l : List String) :
    loadStrItems fieldName (l.map Wire.str) = Except.ok l := by
  induction l with
  | nil => rfl
  | cons hd tl ih => simp [List.map, loadStrItems, loadStr, ih]

theorem serialize_deserialize_id (r : OracleOnSanNewIgroups) :
    deserialize (Wire.obj (serialize r)) = Except.ok r := by
  rcases r with ⟨i, n, o, p⟩
  cases i <;> cases n <;> cases o <;> cases p <;>
    simp [serialize, dumpOpt, deserialize, deserializeFields, loadOptField,
      wireLookup, loadStrList, loadStr, loadStrItems_map]

theorem loadStr_error (fieldName : String) (w : Wire) (h : Wire.isStr w = false) :
    loadStr fieldName w = Except.error ⟨fieldName, "Not a valid string."⟩ := by
  cases w <;> simp_all [Wire.isStr, loadStr]

theorem loadStrItems_error (fieldName : String) (ws : List Wire)
    (h : ws.all Wire.isStr = false) :
    ∃ e : ValidationError, loadStrItems fieldName ws = Except.error e := by
  induction ws with
  | nil => simp at h
  | cons hd tl ih =>
    cases hhd : Wire.isStr hd with
    | false =>
      refine ⟨⟨fieldName, "Not a valid string."⟩, ?_⟩
      have hload := loadStr_error fieldName hd hhd
      cases htl : loadStrItems fieldName tl <;> simp [loadStrItems, hload, htl]
    | true =>
      have htl : tl.all Wire.isStr = false := by
        simp only [List.all_cons, hhd, Bool.true_and] at h
        exact h
      obtain ⟨e, he⟩ := ih htl
      obtain ⟨s, rfl⟩ : ∃ s, hd = Wire.str s := by
        cases hd <;> first | exact ⟨_, rfl⟩ | simp_all [Wire.isStr]
      exact ⟨e, by simp [loadStrItems, loadStr, he]⟩

theorem loadStrList_error (fieldName : String) (w : Wire)
    (h : isStrListWire w = false) :
    ∃ e : ValidationError, loadStrList fieldName w = Except.error e := by
  cases w with
  | list ws =>
    exact loadStrItems_error fieldName ws (by simpa [isStrListWire] using h)
  | str s => exact ⟨_, rfl⟩
  | num n => exact ⟨_, rfl⟩
  | boolean b => exact ⟨_, rfl⟩
  | null => exact ⟨_, rfl⟩
  | obj kvs => exact ⟨_, rfl⟩

theorem deserializeFields_error (kvs : List (String × Wire))
    (h : (loadOptField loadStrList "initiators" kvs).isOk = false ∨
         (loadOptField loadStr "name" kvs).isOk = false ∨
         (loadOptField loadStr "os_type" kvs).isOk = false ∨
         (loadOptField loadStr "protocol" kvs).isOk = false) :
    ∃ e : ValidationError, deserializeFields kvs = Except.error e := by
  cases h1 : loadOptField loadStrList "initiators" kvs <;>
  cases h2 : loadOptField loadStr "name" kvs <;>
  cases h3 : loadOptField loadStr "os_type" kvs <;>
  cases h4 : loadOptField loadStr "protocol" kvs <;>
    simp_all [deserializeFields, Except.isOk, Except.toBool]

/-! ## Claims -/

/-- C1 (counterexample): the claim says an out-of-set `os_type` such as
"macos" makes both serialize and deserialize fail with `ValidationError`;
in fact "macos" is outside the documented choices and both operations
succeed on it, because the source attaches no validator to the field. -/
theorem claim_enum_validation_counterexample :
    os_type_valid_choices.contains "macos" = false ∧
    deserialize (Wire.obj [("os_type", Wire.str "macos")]) =
      Except.ok { os_type := some "macos" } ∧
    serialize { os_type := some "macos" } = [("os_type", Wire.str "macos")] :=
  ⟨by decide, rfl, rfl⟩

/-- C1 (amended): `os_type` and `protocol` are declared as plain string
fields with no validator; the valid-choices lists are documentation only,
so serialize and deserialize accept every string value for them and raise
no `ValidationError`. -/
theorem claim_enum_no_validation (s : String) :
    deserialize (Wire.obj [("os_type", Wire.str s)]) =
      Except.ok { os_type := some s } ∧
    deserialize (Wire.obj [("protocol", Wire.str s)]) =
      Except.ok { protocol := some s } ∧
    serialize { os_type := some s, protocol := some s } =
      [("os_type", Wire.str s), ("protocol", Wire.str s)] :=
  ⟨rfl, rfl, rfl⟩

/-- C2: `patchable_fields` and `postable_fields` hold exactly the four
field names initiators, name, os_type, protocol — no more, no fewer (each
list has no duplicates) — and the two results are equal as sets. -/
theorem claim_field_name_sets :
    (∀ x : String, x ∈ OracleOnSanNewIgroupsSchema.patchable_fields ↔
        (x = "initiators" ∨ x = "name" ∨ x = "os_type" ∨ x = "protocol")) ∧
    OracleOnSanNewIgroupsSchema.patchable_fields.Nodup ∧
    OracleOnSanNewIgroupsSchema.postable_fields.Nodup ∧
    (∀ x : String, x ∈ OracleOnSanNewIgroupsSchema.patchable_fields ↔
        x ∈ OracleOnSanNewIgroupsSchema.postable_fields) := by
  refine ⟨?_, by decide, by decide, ?_⟩ <;> intro x <;>
    simp [OracleOnSanNewIgroupsSchema.patchable_fields,
      OracleOnSanNewIgroupsSchema.postable_fields]

/-- C3: for every record whose present enumerated fields hold values in
their documented choice lists, serialize followed by deserialize
reproduces the record exactly, absent fields included. -/
theorem claim_valid_roundtrip (r : OracleOnSanNewIgroups)
    (ho : ∀ v : String, r.os_type = some v → v ∈ os_type_valid_choices)
    (hp : ∀ v : String, r.protocol = some v → v ∈ protocol_valid_choices) :
    deserialize (Wire.obj (serialize r)) = Except.ok r :=
  serialize_deserialize_id r

/-- C3 witness: the end-to-end example of the spec round-trips. -/
theorem claim_valid_roundtrip_witness :
    deserialize (Wire.obj (serialize exampleRecord)) = Except.ok exampleRecord :=
  claim_valid_roundtrip exampleRecord
    (fun v h => (Option.some.inj h) ▸ (by decide : "windows" ∈ os_type_valid_choices))
    (fun v h => (Option.some.inj h) ▸ (by decide : "iscsi" ∈ protocol_valid_choices))

/-- C4: deserialization ignores any key outside the four declared
data_keys: prepending an unrecognized entry to a wire object leaves the
result of deserialize unchanged (no error, recognized keys still
populated). -/
theorem claim_unknown_keys_ignored (k : String) (v : Wire)
    (kvs : List (String × Wire)) (hk : k ∉ declared_data_keys) :
    deserialize (Wire.obj ((k, v) :: kvs)) = deserialize (Wire.obj kvs) := by
  simp only [declared_data_keys, List.mem_cons, List.mem_singleton, not_or] at hk
  obtain ⟨h1, h2, h3, h4⟩ := hk
  simp [deserialize, deserializeFields, loadOptField, wireLookup, h1, h2, h3, h4]

/-- C4 witness: the spec's example object with an unrecognized key
deserializes successfully, populating name = "grp1". -/
theorem claim_unknown_keys_ignored_witness :
    deserialize (Wire.obj [("unexpected_field", Wire.str "x"),
        ("name", Wire.str "grp1")]) =
      Except.ok { name := some "grp1" } :=
  (claim_unknown_keys_ignored "unexpected_field" (Wire.str "x")
      [("name", Wire.str "grp1")] (by decide)).trans rfl

/-- C5: serialize emits one entry under the data_key of each present
field and omits absent fields entirely (looking up an absent field's key
in the output finds nothing, so there are no null placeholders, and the
output's keys are exactly those of the present fields); the empty record
serializes to the empty wire object and deserializing the empty wire
object yields the empty record. -/
theorem claim_presence_and_omission :
    serialize {} = [] ∧
    deserialize (Wire.obj []) = Except.ok {} ∧
    (∀ r : OracleOnSanNewIgroups,
      wireLookup (serialize r) "initiators" =
        Option.map (fun l => Wire.list (l.map Wire.str)) r.initiators ∧
      wireLookup (serialize r) "name" = Option.map Wire.str r.name ∧
      wireLookup (serialize r) "os_type" = Option.map Wire.str r.os_type ∧
      wireLookup (serialize r) "protocol" = Option.map Wire.str r.protocol ∧
      (serialize r).map Prod.fst =
        (match r.initiators with
          | some _ => ["initiators"] | none => ([] : List String)) ++
        (match r.name with | some _ => ["name"] | none => []) ++
        (match r.os_type with | some _ => ["os_type"] | none => []) ++
        (match r.protocol with | some _ => ["protocol"] | none => [])) := by
  refine ⟨rfl, rfl, ?_⟩
  intro r
  rcases r with ⟨i, n, o, p⟩
  cases i <;> cases n <;> cases o <;> cases p <;> exact ⟨rfl, rfl, rfl, rfl, rfl⟩

/-- C6: a wire object in which any of the four recognized keys holds a
value that does not match that field's declared semantic type — a
non-sequence, or a sequence containing a non-string item, for
initiators; a non-string for name, os_type or protocol — fails to
deserialize with a `ValidationError`. -/
theorem claim_type_mismatch_fails (kvs : List (String × Wire)) (key : String)
    (w : Wire) (hkey : key ∈ declared_data_keys)
    (hfind : wireLookup kvs key = some w)
    (hshape : matchesDeclaredShape key w = false) :
    ∃ e : ValidationError, deserialize (Wire.obj kvs) = Except.error e := by
  have hmem : key = "initiators" ∨ key = "name" ∨ key = "os_type" ∨
      key = "protocol" := by
    simpa [declared_data_keys] using hkey
  have hder : ∃ e : ValidationError, deserializeFields kvs = Except.error e := by
    rcases hmem with rfl | rfl | rfl | rfl
    · refine deserializeFields_error kvs (Or.inl ?_)
      obtain ⟨e, he⟩ := loadStrList_error "initiators" w
        (by simpa [matchesDeclaredShape] using hshape)
      simp [loadOptField, hfind, he, Except.isOk, Except.toBool]
    · refine deserializeFields_error kvs (Or.inr (Or.inl ?_))
      have he := loadStr_error "name" w
        (by simpa [matchesDeclaredShape] using hshape)
      simp [loadOptField, hfind, he, Except.isOk, Except.toBool]
    · refine deserializeFields_error kvs (Or.inr (Or.inr (Or.inl ?_)))
      have he := loadStr_error "os_type" w
        (by simpa [matchesDeclaredShape] using hshape)
      simp [loadOptField, hfind, he, Except.isOk, Except.toBool]
    · refine deserializeFields_error kvs (Or.inr (Or.inr (Or.inr ?_)))
      have he := loadStr_error "protocol" w
        (by simpa [matchesDeclaredShape] using hshape)
      simp [loadOptField, hfind, he, Except.isOk, Except.toBool]
  obtain ⟨e, he⟩ := hder
  exact ⟨e, by simp [deserialize, he]⟩

/-- C6 witness: a scalar string for initiators, a number for name, and a
list containing a number for initiators are each rejected. -/
theorem claim_type_mismatch_fails_witness :
    (∃ e : ValidationError,
      deserialize (Wire.obj [("initiators", Wire.str "x")]) =
        Except.error e) ∧
    (∃ e : ValidationError,
      deserialize (Wire.obj [("name", Wire.num 3)]) = Except.error e) ∧
    (∃ e : ValidationError,
      deserialize (Wire.obj [("initiators", Wire.list [Wire.num 1])]) =
        Except.error e) :=
  ⟨claim_type_mismatch_fails [("initiators", Wire.str "x")] "initiators"
      (Wire.str "x") (by decide) rfl rfl,
   claim_type_mismatch_fails [("name", Wire.num 3)] "name"
      (Wire.num 3) (by decide) rfl rfl,
   claim_type_mismatch_fails [("initiators", Wire.list [Wire.num 1])]
      "initiators" (Wire.list [Wire.num 1]) (by decide) rfl rfl⟩

/-- C7: deserialization is all-or-nothing: it succeeds exactly when every
present declared field parses, and on every input the result is either a
complete record or a `ValidationError` — no partial record and no other
error kind exists. -/
theorem claim_atomic_all_or_nothing (kvs : List (String × Wire)) :
    ((deserialize (Wire.obj kvs)).isOk = true ↔
      ((loadOptField loadStrList "initiators" kvs).isOk = true ∧
       (loadOptField loadStr "name" kvs).isOk = true ∧
       (loadOptField loadStr "os_type" kvs).isOk = true ∧
       (loadOptField loadStr "protocol" kvs).isOk = true)) ∧
    ((∃ r, deserialize (Wire.obj kvs) = Except.ok r) ∨
     (∃ e : ValidationError, deserialize (Wire.obj kvs) = Except.error e)) := by
  constructor
  · cases h1 : loadOptField loadStrList "initiators" kvs <;>
    cases h2 : loadOptField loadStr "name" kvs <;>
    cases h3 : loadOptField loadStr "os_type" kvs <;>
    cases h4 : loadOptField loadStr "protocol" kvs <;>
      simp [deserialize, deserializeFields, h1, h2, h3, h4,
        Except.isOk, Except.toBool]
  · cases h : deserialize (Wire.obj kvs) with
    | error e => exact Or.inr ⟨e, rfl⟩
    | ok r => exact Or.inl ⟨r, rfl⟩

/-- C8: a present-but-empty initiators sequence is valid — serialize
emits an empty list under the initiators key and deserialize accepts it —
and no field is mandatory: the serialized form of every record (hence
every subset of present fields, including none) deserializes
successfully. -/
theorem claim_empty_initiators_valid :
    serialize { initiators := some [] } = [("initiators", Wire.list [])] ∧
    deserialize (Wire.obj [("initiators", Wire.list [])]) =
      Except.ok { initiators := some [] } ∧
    (∀ r : OracleOnSanNewIgroups,
      deserialize (Wire.obj (serialize r)) = Except.ok r) :=
  ⟨rfl, rfl, fun r => serialize_deserialize_id r⟩

/-- C9: serialize and deserialize are deterministic pure functions: equal
inputs give equal outputs (in this embedding both are total functions on
immutable values, so inputs are never mutated and errors are values). -/
theorem claim_serde_deterministic (r₁ r₂ : OracleOnSanNewIgroups)
    (w₁ w₂ : Wire) (hr : r₁ = r₂) (hw : w₁ = w₂) :
    serialize r₁ = serialize r₂ ∧ deserialize w₁ = deserialize w₂ := by
  subst hr
  subst hw
  exact ⟨rfl, rfl⟩

/-- C9 witness: determinism at the spec's example record and at the empty
wire object. -/
theorem claim_serde_deterministic_witness :
    serialize exampleRecord = serialize exampleRecord ∧
    deserialize (Wire.obj []) = deserialize (Wire.obj []) :=
  claim_serde_deterministic exampleRecord exampleRecord
    (Wire.obj []) (Wire.obj []) rfl rfl

/-- C10: `patchable_fields` and `postable_fields` are ordered lists, each
exactly [initiators, name, os_type, protocol] in that order, hence
element-wise identical. -/
theorem claim_field_lists_ordered :
    OracleOnSanNewIgroupsSchema.patchable_fields =
      ["initiators", "name", "os_type", "protocol"] ∧
    OracleOnSanNewIgroupsSchema.postable_fields =
      ["initiators", "name", "os_type", "protocol"] ∧
    OracleOnSanNewIgroupsSchema.patchable_fields =
      OracleOnSanNewIgroupsSchema.postable_fields :=
  ⟨rfl, rfl, rfl⟩
